import Mathlib

/-!
Verification of the Ekasi Cart Shop API middleware.

The development shallowly embeds the two components of the service:

* the HTTP client adapter (`src/common/celler-hut-client.ts`): the axios
  response interceptor (success-envelope unwrapping) and error interceptor
  (error-envelope normalization, timeout/network fixed errors, default
  pass-through);
* the order facade (`CellerHutOrdersService`): one function per business
  operation, each issuing its outbound request(s) through the adapter and
  catching failures.

JavaScript values flowing through the service are modelled by the `Json`
type; JavaScript truthiness by `truthy`; an absent property by `Option`.
The order transformers (`transformCellerHutOrder`,
`transformOrderForCellerHut`) live in `src/common/data-transformer` and are
treated by the spec as an external collaborator, so operations take them as
abstract function parameters.  Facade operations are modelled as functions
from an HTTP oracle (mapping each outbound request to a raw upstream
outcome) to the list of requests issued plus the outcome the caller sees:
`Except.error m` models a thrown `Error` with message `m`.
-/

/-- A JSON-like JavaScript value.  Numbers are modelled as integers (no
claim depends on fractional values). -/
inductive Json where
  | null
  | bool (b : Bool)
  | num (n : Int)
  | str (s : String)
  | arr (elems : List Json)
  | obj (fields : List (String × Json))

mutual

def Json.decEqFn : (a b : Json) → Decidable (a = b)
  | .null, .null => isTrue rfl
  | .bool a, .bool b =>
    match decEq a b with
    | isTrue h => isTrue (by rw [h])
    | isFalse h => isFalse (fun hc => by cases hc; exact h rfl)
  | .num a, .num b =>
    match decEq a b with
    | isTrue h => isTrue (by rw [h])
    | isFalse h => isFalse (fun hc => by cases hc; exact h rfl)
  | .str a, .str b =>
    match decEq a b with
    | isTrue h => isTrue (by rw [h])
    | isFalse h => isFalse (fun hc => by cases hc; exact h rfl)
  | .arr a, .arr b =>
    match Json.decEqList a b with
    | isTrue h => isTrue (by rw [h])
    | isFalse h => isFalse (fun hc => by cases hc; exact h rfl)
  | .obj a, .obj b =>
    match Json.decEqFields a b with
    | isTrue h => isTrue (by rw [h])
    | isFalse h => isFalse (fun hc => by cases hc; exact h rfl)
  | .null, .bool _ | .null, .num _ | .null, .str _ | .null, .arr _ | .null, .obj _
  | .bool _, .null | .bool _, .num _ | .bool _, .str _ | .bool _, .arr _ | .bool _, .obj _
  | .num _, .null | .num _, .bool _ | .num _, .str _ | .num _, .arr _ | .num _, .obj _
  | .str _, .null | .str _, .bool _ | .str _, .num _ | .str _, .arr _ | .str _, .obj _
  | .arr _, .null | .arr _, .bool _ | .arr _, .num _ | .arr _, .str _ | .arr _, .obj _
  | .obj _, .null | .obj _, .bool _ | .obj _, .num _ | .obj _, .str _ | .obj _, .arr _ =>
    isFalse (fun hc => Json.noConfusion hc)

def Json.decEqList : (a b : List Json) → Decidable (a = b)
  | [], [] => isTrue rfl
  | [], _ :: _ => isFalse (fun hc => List.noConfusion hc)
  | _ :: _, [] => isFalse (fun hc => List.noConfusion hc)
  | x :: xs, y :: ys =>
    match Json.decEqFn x y, Json.decEqList xs ys with
    | isTrue h1, isTrue h2 => isTrue (by rw [h1, h2])
    | isFalse h1, _ => isFalse (fun hc => by cases hc; exact h1 rfl)
    | _, isFalse h2 => isFalse (fun hc => by cases hc; exact h2 rfl)

def Json.decEqFields : (a b : List (String × Json)) → Decidable (a = b)
  | [], [] => isTrue rfl
  | [], _ :: _ => isFalse (fun hc => List.noConfusion hc)
  | _ :: _, [] => isFalse (fun hc => List.noConfusion hc)
  | (k1, v1) :: xs, (k2, v2) :: ys =>
    match decEq k1 k2, Json.decEqFn v1 v2, Json.decEqFields xs ys with
    | isTrue hk, isTrue hv, isTrue ht => isTrue (by rw [hk, hv, ht])
    | isFalse hk, _, _ => isFalse (fun hc => by cases hc; exact hk rfl)
    | _, isFalse hv, _ => isFalse (fun hc => by cases hc; exact hv rfl)
    | _, _, isFalse ht => isFalse (fun hc => by cases hc; exact ht rfl)

end

instance : DecidableEq Json := Json.decEqFn

deriving instance DecidableEq for Except

/-- Property lookup on an object (`b.k` in JavaScript): `none` models
`undefined`.  Property access on a non-object value yields `none` as well
(the properties of JS primitives play no role in this service). -/
def Json.getField : Json → String → Option Json
  | Json.obj fields, k => lookupField fields k
  | _, _ => none
where lookupField : List (String × Json) → String → Option Json
  | [], _ => none
  | (k0, v) :: rest, k => if k0 = k then some v else lookupField rest k

/-- JavaScript truthiness of a defined value. -/
def truthy : Json → Bool
  | Json.null => false
  | Json.bool b => b
  | Json.num n => n != 0
  | Json.str s => s != ""
  | Json.arr _ => true
  | Json.obj _ => true

/-- Truthiness of a possibly-undefined value (`undefined` is falsy). -/
def truthyOpt : Option Json → Option Json
  | some v => if truthy v then some v else none
  | none => none

/-- `a.k || d`: the property value when present and truthy, else `d`. -/
def jsOr (o : Option Json) (d : Json) : Json :=
  match o with
  | some v => if truthy v then v else d
  | none => d

/-- Property read where an absent property (`undefined`) is carried along as
`Json.null` inside constructed result objects. -/
def Json.getFieldD (b : Json) (k : String) : Json :=
  (b.getField k).getD Json.null

/-- Property assignment `obj.k = v`: replaces the binding in place when the
key exists, otherwise appends it (JS insertion order).  Assignment on a
non-object is a no-op here (no claim exercises it). -/
def setInList : List (String × Json) → String → Json → List (String × Json)
  | [], k, v => [(k, v)]
  | (k0, v0) :: rest, k, v =>
      if k0 = k then (k0, v) :: rest else (k0, v0) :: setInList rest k v

def setField : Json → String → Json → Json
  | Json.obj fields, k, v => Json.obj (setInList fields k v)
  | j, _, _ => j

/-- Object spread `{ ...base fields..., ...p }`: the own properties of `p`
are copied over the base object in order, overwriting existing keys. -/
def spreadObj (base : Json) (p : Json) : Json :=
  match base, p with
  | Json.obj bs, Json.obj ps =>
      Json.obj (ps.foldl (fun acc kv => setInList acc kv.fst kv.snd) bs)
  | b, _ => b

/-- `b && typeof b === 'object'`: non-null objects and arrays. -/
def isObjectLike : Json → Bool
  | Json.obj _ => true
  | Json.arr _ => true
  | _ => false

def isArrayJson : Json → Bool
  | Json.arr _ => true
  | _ => false

/-- `b.status === s` for a string literal `s` (strict equality, so only a
string property matches). -/
def statusIs (b : Json) (s : String) : Bool :=
  match b.getField "status" with
  | some (Json.str v) => v = s
  | _ => false

/-!
## HTTP client adapter (`src/common/celler-hut-client.ts`)
-/

/-- The part of an axios error the interceptor inspects: the optional
server response (`error.response`, with HTTP status and body `data`) and
the optional client error code (`error.code`). -/
structure AxiosErrorLike where
  resp : Option (Nat × Json)
  code : Option String
  deriving DecidableEq

/-- Raw outcome of an outbound HTTP exchange, before the interceptors. -/
inductive RawOutcome where
  | success (status : Nat) (body : Json)
  | failure (e : AxiosErrorLike)
  deriving DecidableEq

/-- The value an adapter call rejects with.  `newError msg code errs`
models `new Error(msg)` with the optional `statusCode` / `errors`
properties the interceptor attaches; such an error has no `response`
property.  `passthrough e` models rejecting with the original axios error
object unchanged. -/
inductive Rejection where
  | newError (message : Json) (statusCode : Option Nat) (errors : Option Json)
  | passthrough (e : AxiosErrorLike)
  deriving DecidableEq

def Rejection.message : Rejection → Option Json
  | Rejection.newError m _ _ => some m
  | Rejection.passthrough _ => none

def Rejection.statusCode : Rejection → Option Nat
  | Rejection.newError _ c _ => c
  | Rejection.passthrough _ => none

/-- `error.response` as seen by a facade `catch` block. -/
def Rejection.response : Rejection → Option (Nat × Json)
  | Rejection.newError _ _ _ => none
  | Rejection.passthrough e => e.resp

/-- Success handler of the response interceptor: unwrap one level of the
`{status: "success", data: D}` envelope (`data !== undefined`), pass every
other body through unchanged. -/
def unwrapResponse (b : Json) : Json :=
  if isObjectLike b then
    if statusIs b "success" then
      match b.getField "data" with
      | some d => d
      | none => b
    else b
  else b

/-- The success-envelope test, matching the interceptor's condition. -/
def isSuccessEnvelope (b : Json) : Bool :=
  isObjectLike b && statusIs b "success" && (b.getField "data").isSome

/-- Whether a failed request carries a `{status: "error", ...}` body
(`error.response?.data` truthy and `errorData.status === 'error'`). -/
def carriesErrorEnvelope (e : AxiosErrorLike) : Bool :=
  match e.resp with
  | some (_, d) => truthy d && statusIs d "error"
  | none => false

/-- Timeout / network-failure / default branches of the error handler. -/
def fallbackRejection (e : AxiosErrorLike) : Rejection :=
  if e.code = some "ECONNABORTED" then
    Rejection.newError (Json.str "Request timeout - Ekasi Cart API not responding") none none
  else if e.code = some "ERR_NETWORK" then
    Rejection.newError (Json.str "Network error - Unable to reach Ekasi Cart API") none none
  else Rejection.passthrough e

/-- Error handler of the response interceptor: normalize an error-envelope
body into a fresh `Error` carrying the HTTP status code, the (defaulted)
message and the (defaulted) field-error map; otherwise fall through to the
timeout / network / default handling. -/
def errorInterceptor (e : AxiosErrorLike) : Rejection :=
  match e.resp with
  | some (st, d) =>
      if truthy d && statusIs d "error" then
        Rejection.newError (jsOr (d.getField "message") (Json.str "An error occurred"))
          (some st)
          (some (jsOr (d.getField "errors") (Json.obj [])))
      else fallbackRejection e
  | none => fallbackRejection e

/-- What a caller of the adapter observes for a raw outcome: the unwrapped
body on success, a rejection from the error interceptor on failure. -/
def adapterResult : RawOutcome → Except Rejection Json
  | RawOutcome.success _ body => Except.ok (unwrapResponse body)
  | RawOutcome.failure e => Except.error (errorInterceptor e)

/-!
## Order facade (`CellerHutOrdersService`)
-/

/-- An outbound request issued through the adapter.  `body` is `Json.null`
for requests without a body; `params` is the query-parameter object
(`Json.obj []` when none).  Headers carry only the bearer token and are not
modelled (no claim concerns them). -/
structure HttpRequest where
  method : String
  path : String
  body : Json
  params : Json
  deriving DecidableEq

/-- An HTTP oracle: the raw upstream outcome of each possible request. -/
def HttpOracle := HttpRequest → RawOutcome

/-- The observable behaviour of one facade call: the outbound requests it
issued, in order, and the outcome (`Except.error m` models a thrown
`Error` whose message is `m`). -/
structure RunResult where
  requests : List HttpRequest
  outcome : Except Json Json

def getReq (path : String) (params : Json) : HttpRequest :=
  { method := "GET", path := path, body := Json.null, params := params }

def postReq (path : String) (body : Json) : HttpRequest :=
  { method := "POST", path := path, body := body, params := Json.obj [] }

def putReq (path : String) (body : Json) : HttpRequest :=
  { method := "PUT", path := path, body := body, params := Json.obj [] }

/-- Modelled from the spec: `transformPagination` lives in
`src/common/data-transformer`, which is not among the sources; the spec
describes its output as a pagination envelope of "page/limit/total
metadata" wrapped around the order list, "constructed fresh per response".
We model it as that metadata object, read off the upstream body; crucially
it carries no `data` key of its own. -/
def transformPagination (body : Json) : Json :=
  Json.obj [("page", body.getFieldD "page"),
            ("limit", body.getFieldD "limit"),
            ("total", body.getFieldD "total")]

/-- `Array.isArray(body) ? body.map(tf) : []`. -/
def mapOrders (tf : Json → Json) : Json → Json
  | Json.arr elems => Json.arr (elems.map tf)
  | _ => Json.arr []

/-- `{ data: transformedData, ...pagination }`. -/
def paginatorResult (tf : Json → Json) (vb : Json) : Json :=
  spreadObj (Json.obj [("data", mapOrders tf vb)]) (transformPagination vb)

namespace CellerHutOrdersService

/-- `create`: POST the transformed draft to `/ecommerce/orders`; unpack
`{order, payment}` or a bare order; attach truthy payment data to the
transformed order.  On failure throw the fixed creation message. -/
def create (tReq tf : Json → Json) (dto : Json) (http : HttpOracle) : RunResult :=
  let req := postReq "/ecommerce/orders" (tReq dto)
  { requests := [req],
    outcome :=
      match adapterResult (http req) with
      | Except.error _ => Except.error (Json.str "Failed to create order in Ekasi Cart API")
      | Except.ok vb =>
          let orderData := jsOr (vb.getField "order") vb
          let transformedOrder := tf orderData
          match truthyOpt (vb.getField "payment") with
          | some p => Except.ok (setField transformedOrder "payment" p)
          | none => Except.ok transformedOrder }

/-- The filter bag of `getOrders`; each entry is absent (`none`) or a JS
value. -/
structure GetOrdersDto where
  limit : Option Json
  page : Option Json
  customer_id : Option Json
  tracking_number : Option Json
  search : Option Json
  shop_id : Option Json

/-- Query parameters built by `getOrders`.  `jsNumber` abstracts the JS
`Number(...)` coercion applied to `shop_id`. -/
def getOrdersParams (jsNumber : Json → Json) (dto : GetOrdersDto) : Json :=
  let base := [("page", jsOr dto.page (Json.num 1)), ("limit", jsOr dto.limit (Json.num 15))]
  let l1 := match truthyOpt dto.customer_id with
            | some v => base ++ [("customer_id", v)]
            | none => base
  let l2 := match truthyOpt dto.tracking_number with
            | some v => l1 ++ [("tracking_number", v)]
            | none => l1
  let l3 := match truthyOpt dto.shop_id with
            | some v => if v = Json.str "undefined" then l2 else l2 ++ [("shop_id", jsNumber v)]
            | none => l2
  let l4 := match truthyOpt dto.search with
            | some v => l3 ++ [("search", v)]
            | none => l3
  Json.obj l4

/-- `getOrders`: GET `/ecommerce/orders`; map an array body through the
order transformer (any other body yields an empty list) and spread in the
pagination envelope. -/
def getOrders (tf jsNumber : Json → Json) (dto : GetOrdersDto) (http : HttpOracle) : RunResult :=
  let req := getReq "/ecommerce/orders" (getOrdersParams jsNumber dto)
  { requests := [req],
    outcome :=
      match adapterResult (http req) with
      | Except.error _ => Except.error (Json.str "Failed to fetch orders from Ekasi Cart API")
      | Except.ok vb => Except.ok (paginatorResult tf vb) }

/-- Whether the order body triggers the GPS-tracking attachment
(`orderData.tracking_enabled && orderData.tookan_job_id`). -/
def trackingFlagged (vb : Json) : Bool :=
  (truthyOpt (vb.getField "tracking_enabled")).isSome &&
  (truthyOpt (vb.getField "tookan_job_id")).isSome

/-- The derived `gps_tracking` sub-object. -/
def gpsTrackingObj (vb : Json) : Json :=
  Json.obj [("trackingEnabled", vb.getFieldD "tracking_enabled"),
            ("trackingUrl", vb.getFieldD "tracking_url"),
            ("deliveryService", vb.getFieldD "delivery_service"),
            ("orderId", vb.getFieldD "id"),
            ("orderNumber", vb.getFieldD "tracking_number"),
            ("orderStatus", vb.getFieldD "order_status")]

def orderByIdReq (id : String) : HttpRequest :=
  getReq ("/ecommerce/orders/" ++ id) (Json.obj [])

def orderByTrackingReq (id : String) : HttpRequest :=
  getReq ("/ecommerce/orders/tracking/" ++ id) (Json.obj [])

/-- `getOrderByIdOrTrackingNumber`: GET by id; if that call rejects, GET by
tracking number; transform the body and attach the `gps_tracking` object
when the body flags tracking.  If the reached call(s) fail, throw the fixed
not-found message. -/
def getOrderByIdOrTrackingNumber (tf : Json → Json) (id : String) (http : HttpOracle) : RunResult :=
  let finish := fun (vb : Json) =>
    let transformedOrder := tf vb
    if trackingFlagged vb then
      Except.ok (setField transformedOrder "gps_tracking" (gpsTrackingObj vb))
    else Except.ok transformedOrder
  match adapterResult (http (orderByIdReq id)) with
  | Except.ok vb => { requests := [orderByIdReq id], outcome := finish vb }
  | Except.error _ =>
      match adapterResult (http (orderByTrackingReq id)) with
      | Except.ok vb => { requests := [orderByIdReq id, orderByTrackingReq id], outcome := finish vb }
      | Except.error _ =>
          { requests := [orderByIdReq id, orderByTrackingReq id],
            outcome := Except.error (Json.str ("Order with ID/tracking \"" ++ id ++ "\" not found")) }

/-- `update`: PUT the transformed patch to `/orders/{id}`. -/
def update (tReq tf : Json → Json) (id : Int) (dto : Json) (http : HttpOracle) : RunResult :=
  let req := putReq ("/orders/" ++ toString id) (tReq dto)
  { requests := [req],
    outcome :=
      match adapterResult (http req) with
      | Except.error _ =>
          Except.error (Json.str ("Failed to update order " ++ toString id ++ " in Ekasi Cart API"))
      | Except.ok vb => Except.ok (tf vb) }

/-- `cancel`: POST `/orders/{id}/cancel`. -/
def cancel (tf : Json → Json) (id : Int) (http : HttpOracle) : RunResult :=
  let req := postReq ("/orders/" ++ toString id ++ "/cancel") Json.null
  { requests := [req],
    outcome :=
      match adapterResult (http req) with
      | Except.error _ =>
          Except.error (Json.str ("Failed to cancel order " ++ toString id ++ " in Ekasi Cart API"))
      | Except.ok vb => Except.ok (tf vb) }

/-- `getOrderStatus`: GET `/orders/{id}/status`, defaulting the two status
fields to `"pending"` (the `PENDING` members of the status enums). -/
def getOrderStatus (id : Int) (http : HttpOracle) : RunResult :=
  let req := getReq ("/orders/" ++ toString id ++ "/status") (Json.obj [])
  { requests := [req],
    outcome :=
      match adapterResult (http req) with
      | Except.error _ => Except.error (Json.str ("Failed to get status for order " ++ toString id))
      | Except.ok vb =>
          Except.ok (Json.obj
            [("id", vb.getFieldD "id"),
             ("order_status", jsOr (vb.getField "order_status") (Json.str "pending")),
             ("payment_status", jsOr (vb.getField "payment_status") (Json.str "pending")),
             ("updated_at", vb.getFieldD "updated_at")]) }

/-- `updateOrderStatus`: PUT `/orders/{id}/status` with `{order_status}`. -/
def updateOrderStatus (tf : Json → Json) (id : Int) (status : String) (http : HttpOracle) : RunResult :=
  let req := putReq ("/orders/" ++ toString id ++ "/status") (Json.obj [("order_status", Json.str status)])
  { requests := [req],
    outcome :=
      match adapterResult (http req) with
      | Except.error _ => Except.error (Json.str ("Failed to update status for order " ++ toString id))
      | Except.ok vb => Except.ok (tf vb) }

/-- `updatePaymentStatus`: PUT `/orders/{id}/payment-status`. -/
def updatePaymentStatus (tf : Json → Json) (id : Int) (paymentStatus : String) (http : HttpOracle) : RunResult :=
  let req := putReq ("/orders/" ++ toString id ++ "/payment-status")
      (Json.obj [("payment_status", Json.str paymentStatus)])
  { requests := [req],
    outcome :=
      match adapterResult (http req) with
      | Except.error _ =>
          Except.error (Json.str ("Failed to update payment status for order " ++ toString id))
      | Except.ok vb => Except.ok (tf vb) }

/-- `getOrdersByCustomer`: GET `/orders` with the customer filter and the
option bag spread over the base parameters. -/
def getOrdersByCustomer (tf : Json → Json) (customerId : Int) (options : Json) (http : HttpOracle) : RunResult :=
  let params := spreadObj (Json.obj
      [("customer_id", Json.num customerId),
       ("page", jsOr (options.getField "page") (Json.num 1)),
       ("limit", jsOr (options.getField "limit") (Json.num 15))]) options
  let req := getReq "/orders" params
  { requests := [req],
    outcome :=
      match adapterResult (http req) with
      | Except.error _ =>
          Except.error (Json.str ("Failed to fetch orders for customer " ++ toString customerId))
      | Except.ok vb => Except.ok (paginatorResult tf vb) }

/-- `getOrdersByShop`: GET `/orders` with the shop filter. -/
def getOrdersByShop (tf : Json → Json) (shopId : Int) (options : Json) (http : HttpOracle) : RunResult :=
  let params := spreadObj (Json.obj
      [("shop_id", Json.num shopId),
       ("page", jsOr (options.getField "page") (Json.num 1)),
       ("limit", jsOr (options.getField "limit") (Json.num 15))]) options
  let req := getReq "/orders" params
  { requests := [req],
    outcome :=
      match adapterResult (http req) with
      | Except.error _ =>
          Except.error (Json.str ("Failed to fetch orders for shop " ++ toString shopId))
      | Except.ok vb => Except.ok (paginatorResult tf vb) }

/-- `processPayment`: POST `/orders/{id}/payment`; the success flag is
computed as `response.data.success || true`. -/
def processPayment (orderId : Int) (paymentData : Json) (http : HttpOracle) : RunResult :=
  let req := postReq ("/orders/" ++ toString orderId ++ "/payment") paymentData
  { requests := [req],
    outcome :=
      match adapterResult (http req) with
      | Except.error _ =>
          Except.error (Json.str ("Failed to process payment for order " ++ toString orderId))
      | Except.ok vb =>
          Except.ok (Json.obj
            [("success", jsOr (vb.getField "success") (Json.bool true)),
             ("payment_intent", vb.getFieldD "payment_intent"),
             ("transaction_id", vb.getFieldD "transaction_id"),
             ("message", jsOr (vb.getField "message") (Json.str "Payment processed successfully"))]) }

/-- `getOrderInvoice`: GET `/orders/{id}/invoice`. -/
def getOrderInvoice (orderId : Int) (http : HttpOracle) : RunResult :=
  let req := getReq ("/orders/" ++ toString orderId ++ "/invoice") (Json.obj [])
  { requests := [req],
    outcome :=
      match adapterResult (http req) with
      | Except.error _ =>
          Except.error (Json.str ("Failed to get invoice for order " ++ toString orderId))
      | Except.ok vb =>
          Except.ok (Json.obj
            [("invoice_url", vb.getFieldD "invoice_url"),
             ("invoice_number", vb.getFieldD "invoice_number"),
             ("generated_at", vb.getFieldD "generated_at")]) }

/-- `getOrderTracking`: GET `/orders/tracking/{n}`. -/
def getOrderTracking (trackingNumber : String) (http : HttpOracle) : RunResult :=
  let req := getReq ("/orders/tracking/" ++ trackingNumber) (Json.obj [])
  { requests := [req],
    outcome :=
      match adapterResult (http req) with
      | Except.error _ =>
          Except.error (Json.str ("Failed to get tracking for order " ++ trackingNumber))
      | Except.ok vb =>
          Except.ok (Json.obj
            [("tracking_number", vb.getFieldD "tracking_number"),
             ("status", vb.getFieldD "status"),
             ("tracking_events", jsOr (vb.getField "tracking_events") (Json.arr [])),
             ("estimated_delivery", vb.getFieldD "estimated_delivery"),
             ("carrier", vb.getFieldD "carrier")]) }

/-- `verifyCheckout`: POST `/ecommerce/orders/verify-checkout` and read the
summary out of `response.data.data` with per-field defaults. -/
def verifyCheckout (checkoutData : Json) (http : HttpOracle) : RunResult :=
  let req := postReq "/ecommerce/orders/verify-checkout" checkoutData
  { requests := [req],
    outcome :=
      match adapterResult (http req) with
      | Except.error _ => Except.error (Json.str "Failed to verify checkout data")
      | Except.ok vb =>
          let dd := vb.getFieldD "data"
          Except.ok (Json.obj
            [("unavailable_products", jsOr (dd.getField "unavailable_products") (Json.arr [])),
             ("total_tax", jsOr (dd.getField "total_tax") (Json.num 0)),
             ("shipping_charge", jsOr (dd.getField "shipping_charge") (Json.num 0)),
             ("shipping_zone", jsOr (dd.getField "shipping_zone") (Json.str "")),
             ("estimated_delivery", jsOr (dd.getField "estimated_delivery") (Json.str "")),
             ("available_coupons", jsOr (dd.getField "available_coupons") (Json.arr []))]) }

/-- The zeroed analytics object returned on failure. -/
def zeroAnalytics : Json :=
  Json.obj [("total_orders", Json.num 0), ("total_revenue", Json.num 0),
            ("pending_orders", Json.num 0), ("completed_orders", Json.num 0),
            ("cancelled_orders", Json.num 0), ("average_order_value", Json.num 0)]

/-- `getOrderAnalytics`: GET `/orders/analytics`; fields default to 0; on
failure the catch returns `zeroAnalytics` instead of raising. -/
def getOrderAnalytics (shopId : Option Int) (http : HttpOracle) : RunResult :=
  let params := match shopId with
                | some s => if s ≠ 0 then Json.obj [("shop_id", Json.num s)] else Json.obj []
                | none => Json.obj []
  let req := getReq "/orders/analytics" params
  { requests := [req],
    outcome :=
      match adapterResult (http req) with
      | Except.error _ => Except.ok zeroAnalytics
      | Except.ok vb =>
          Except.ok (Json.obj
            [("total_orders", jsOr (vb.getField "total_orders") (Json.num 0)),
             ("total_revenue", jsOr (vb.getField "total_revenue") (Json.num 0)),
             ("pending_orders", jsOr (vb.getField "pending_orders") (Json.num 0)),
             ("completed_orders", jsOr (vb.getField "completed_orders") (Json.num 0)),
             ("cancelled_orders", jsOr (vb.getField "cancelled_orders") (Json.num 0)),
             ("average_order_value", jsOr (vb.getField "average_order_value") (Json.num 0))]) }

/-- The `catch` of `validateCheckoutForPayment`: forward
`error.response.data.message` when the caught error still has a `response`
(only adapter pass-through errors do), else the fixed message. -/
def validateCatchMessage (r : Rejection) : Json :=
  match r.response with
  | some (_, d) => jsOr (d.getField "message") (Json.str "Failed to validate checkout")
  | none => Json.str "Failed to validate checkout for payment"

/-- `validateCheckoutForPayment`: POST `/ecommerce/checkout/validate`
(payment-first flow, step 1). -/
def validateCheckoutForPayment (checkoutData : Json) (http : HttpOracle) : RunResult :=
  let req := postReq "/ecommerce/checkout/validate" checkoutData
  { requests := [req],
    outcome :=
      match adapterResult (http req) with
      | Except.error r => Except.error (validateCatchMessage r)
      | Except.ok vb =>
          let dd := vb.getFieldD "data"
          Except.ok (Json.obj
            [("sessionId", dd.getFieldD "sessionId"),
             ("validated", dd.getFieldD "validated"),
             ("message", vb.getFieldD "message")]) }

/-- The `catch` of `initiatePaymentFirst` (same forwarding pattern; both
fallbacks use the same fixed message). -/
def initiateCatchMessage (r : Rejection) : Json :=
  match r.response with
  | some (_, d) => jsOr (d.getField "message") (Json.str "Failed to initiate payment")
  | none => Json.str "Failed to initiate payment"

/-- `initiatePaymentFirst`: POST `/ecommerce/payments/initiate-payment-first`
(payment-first flow, step 2). -/
def initiatePaymentFirst (paymentData : Json) (http : HttpOracle) : RunResult :=
  let req := postReq "/ecommerce/payments/initiate-payment-first" paymentData
  { requests := [req],
    outcome :=
      match adapterResult (http req) with
      | Except.error r => Except.error (initiateCatchMessage r)
      | Except.ok vb =>
          Except.ok (Json.obj
            [("transactionId", vb.getFieldD "transactionId"),
             ("checkoutId", vb.getFieldD "checkoutId"),
             ("paymentUrl", vb.getFieldD "paymentUrl"),
             ("status", vb.getFieldD "status"),
             ("message", vb.getFieldD "message")]) }

/-- `getCheckoutSession`: GET `/ecommerce/checkout/session/{id}` and return
`response.data.data`. -/
def getCheckoutSession (sessionId : String) (http : HttpOracle) : RunResult :=
  let req := getReq ("/ecommerce/checkout/session/" ++ sessionId) (Json.obj [])
  { requests := [req],
    outcome :=
      match adapterResult (http req) with
      | Except.error _ => Except.error (Json.str "Failed to get checkout session")
      | Except.ok vb => Except.ok (vb.getFieldD "data") }

/-- `verifyPaymentForOrder`: POST `/ecommerce/payments/verify-for-order`
and return the raw payload. -/
def verifyPaymentForOrder (data : Json) (http : HttpOracle) : RunResult :=
  let req := postReq "/ecommerce/payments/verify-for-order" data
  { requests := [req],
    outcome :=
      match adapterResult (http req) with
      | Except.error _ => Except.error (Json.str "Failed to verify payment for order")
      | Except.ok vb => Except.ok vb }

end CellerHutOrdersService

/-!
## Concrete inputs used by witnesses and counterexamples
-/

/-- An oracle under which every outbound request fails with `e`. -/
def failingOracle (e : AxiosErrorLike) : HttpOracle := fun _ => RawOutcome.failure e

/-- Field lookup on the payload of a non-throwing outcome. -/
def outcomeField (r : Except Json Json) (k : String) : Option Json :=
  match r with
  | Except.ok j => j.getField k
  | Except.error _ => none

/-- An error envelope whose `message` is the empty string (falsy). -/
def emptyMessageErr : AxiosErrorLike :=
  { resp := some (400, Json.obj [("status", Json.str "error"),
      ("message", Json.str ""), ("errors", Json.obj [])]),
    code := none }

/-- A structured upstream error envelope carrying a helpful message. -/
def cardDeclinedErr : AxiosErrorLike :=
  { resp := some (422, Json.obj [("status", Json.str "error"),
      ("message", Json.str "Card declined"), ("errors", Json.obj [])]),
    code := none }

/-- A client-side timeout error (no server response). -/
def timeoutErr : AxiosErrorLike := { resp := none, code := some "ECONNABORTED" }

/-- A server error whose body is not a `{status: "error"}` envelope, so the
adapter passes it through with its `response` intact. -/
def noStockErr : AxiosErrorLike :=
  { resp := some (500, Json.obj [("message", Json.str "No stock")]), code := none }

/-- A tracking-endpoint order body that flags GPS tracking. -/
def trackedOrderBody : Json :=
  Json.obj [("id", Json.num 7), ("tracking_number", Json.str "T123"),
            ("order_status", Json.str "processing"),
            ("tracking_enabled", Json.bool true), ("tookan_job_id", Json.str "J1"),
            ("tracking_url", Json.str "https://track"), ("delivery_service", Json.str "tookan")]

/-- A not-found error envelope. -/
def notFoundErr : AxiosErrorLike :=
  { resp := some (404, Json.obj [("status", Json.str "error"),
      ("message", Json.str "not found"), ("errors", Json.obj [])]),
    code := none }

/-- Oracle for the fallback scenario: the by-ID lookup of `"T123"` fails,
the tracking lookup succeeds with `trackedOrderBody`. -/
def fallbackOracle : HttpOracle := fun req =>
  if req = CellerHutOrdersService.orderByTrackingReq "T123" then
    RawOutcome.success 200 trackedOrderBody
  else
    RawOutcome.failure notFoundErr

/-- An upstream payment body whose `success` field is a truthy string. -/
def truthySuccessBody : Json :=
  Json.obj [("success", Json.str "CONFIRMED"), ("transaction_id", Json.str "tx1")]

def truthySuccessOracle : HttpOracle := fun _ => RawOutcome.success 200 truthySuccessBody

/-- The mock creation response of the spec scenario. -/
def mockCreateBody : Json :=
  Json.obj [("order", Json.obj [("id", Json.num 1)]),
            ("payment", Json.obj [("url", Json.str "https://pay")])]

def mockCreateOracle : HttpOracle := fun _ => RawOutcome.success 201 mockCreateBody

/-!
## Helper lemmas
-/

theorem jsOr_of_truthy {o : Option Json} {v : Json} (h : truthyOpt o = some v) (d : Json) :
    jsOr o d = v := by
  cases o with
  | none => simp [truthyOpt] at h
  | some w =>
      simp only [truthyOpt] at h
      by_cases ht : truthy w
      · rw [if_pos ht] at h
        cases h
        simp [jsOr, ht]
      · rw [if_neg ht] at h
        exact Option.noConfusion h

theorem jsOr_of_falsy {o : Option Json} (h : truthyOpt o = none) (d : Json) :
    jsOr o d = d := by
  cases o with
  | none => simp [jsOr]
  | some w =>
      simp only [truthyOpt] at h
      by_cases ht : truthy w
      · rw [if_pos ht] at h
        exact Option.noConfusion h
      · simp [jsOr, ht]

theorem lookup_setInList (fs : List (String × Json)) (k : String) (v : Json) :
    Json.getField.lookupField (setInList fs k v) k = some v := by
  induction fs with
  | nil => simp [setInList, Json.getField.lookupField]
  | cons kv rest ih =>
      obtain ⟨k0, v0⟩ := kv
      by_cases hk : k0 = k
      · subst hk
        simp [setInList, Json.getField.lookupField]
      · simp [setInList, hk, Json.getField.lookupField, ih]

theorem getField_setField (fs : List (String × Json)) (k : String) (v : Json) :
    (setField (Json.obj fs) k v).getField k = some v := by
  simp [setField, Json.getField, lookup_setInList]

theorem paginator_data_of_non_array (tf : Json → Json) (vb : Json)
    (hna : isArrayJson vb = false) :
    (paginatorResult tf vb).getField "data" = some (Json.arr []) := by
  cases vb with
  | arr elems => simp [isArrayJson] at hna
  | null => rfl
  | bool b => rfl
  | num n => rfl
  | str s => rfl
  | obj fields => rfl

/-!
## Claims about the adapter
-/

/-- C1: the response interceptor unwraps exactly one level of the
`{status: "success", data: D}` envelope whenever `D` is defined, and
returns every body of any other shape (non-objects, objects without
`status: "success"`, objects without a `data` field) unchanged; in
particular an already-unwrapped non-envelope body is left unchanged. -/
theorem c1_unwrap_success_envelope (b : Json) :
    (∀ d, isSuccessEnvelope b = true → b.getField "data" = some d → unwrapResponse b = d) ∧
    (isSuccessEnvelope b = false → unwrapResponse b = b) := by
  constructor
  · intro d henv hdata
    simp only [isSuccessEnvelope, Bool.and_eq_true] at henv
    simp [unwrapResponse, henv.1.1, henv.1.2, hdata]
  · intro henv
    simp only [isSuccessEnvelope, Bool.and_eq_true] at henv
    unfold unwrapResponse
    by_cases hobj : isObjectLike b
    · by_cases hst : statusIs b "success"
      · have hdat : (b.getField "data").isSome = false := by
          rcases hd : (b.getField "data").isSome
          · rfl
          · rw [hobj, hst, hd] at henv
            simp at henv
        have hnone : b.getField "data" = none := by
          rcases hd : b.getField "data" with _ | d
          · rfl
          · rw [hd] at hdat
            simp at hdat
        simp [hobj, hst, hnone]
      · simp [hobj, hst]
    · simp [hobj]

theorem c1_witness :
    unwrapResponse (Json.obj [("status", Json.str "success"),
      ("message", Json.str "ok"), ("data", Json.num 5)]) = Json.num 5 ∧
    unwrapResponse (Json.str "already unwrapped") = Json.str "already unwrapped" :=
  ⟨(c1_unwrap_success_envelope _).1 (Json.num 5) (by decide) (by decide),
   (c1_unwrap_success_envelope _).2 (by decide)⟩

/-- C3 (amended): for a failed response whose body is a `{status: "error"}`
envelope with fields `message M` and `errors E`, the rejected error carries
the original HTTP status code, and its message equals `M` whenever `M` is
truthy; a falsy `M` (such as the empty string) is replaced by the default
`"An error occurred"`. -/
theorem c3_error_envelope_normalized (e : AxiosErrorLike) (st : Nat) (d m : Json)
    (hresp : e.resp = some (st, d)) (ht : truthy d = true)
    (hs : statusIs d "error" = true)
    (hm : d.getField "message" = some m) (hmt : truthy m = true) :
    (errorInterceptor e).statusCode = some st ∧ (errorInterceptor e).message = some m := by
  unfold errorInterceptor
  rw [hresp]
  simp [ht, hs, jsOr, hm, hmt, Rejection.statusCode, Rejection.message]

theorem c3_witness :
    (errorInterceptor cardDeclinedErr).statusCode = some 422 ∧
    (errorInterceptor cardDeclinedErr).message = some (Json.str "Card declined") :=
  c3_error_envelope_normalized cardDeclinedErr 422
    (Json.obj [("status", Json.str "error"), ("message", Json.str "Card declined"),
      ("errors", Json.obj [])])
    (Json.str "Card declined") (by decide) (by decide) (by decide) (by decide) (by decide)

/-- C3 counterexample: an error envelope whose `message` is the empty
string is rejected with the default message `"An error occurred"`, not with
`M = ""` as the claim states. -/
theorem c3_counterexample :
    (errorInterceptor emptyMessageErr).statusCode = some 400 ∧
    (errorInterceptor emptyMessageErr).message = some (Json.str "An error occurred") ∧
    (errorInterceptor emptyMessageErr).message ≠ some (Json.str "") := by
  decide

/-- C9: for a failed request whose error does not carry a
`{status: "error"}` envelope body, the code `ECONNABORTED` yields the fixed
timeout rejection, the code `ERR_NETWORK` yields the fixed network-error
rejection, and any other error is rejected unchanged. -/
theorem c9_non_envelope_error_fallback (e : AxiosErrorLike)
    (henv : carriesErrorEnvelope e = false) :
    (e.code = some "ECONNABORTED" → errorInterceptor e =
      Rejection.newError (Json.str "Request timeout - Ekasi Cart API not responding") none none) ∧
    (e.code = some "ERR_NETWORK" → errorInterceptor e =
      Rejection.newError (Json.str "Network error - Unable to reach Ekasi Cart API") none none) ∧
    (e.code ≠ some "ECONNABORTED" → e.code ≠ some "ERR_NETWORK" →
      errorInterceptor e = Rejection.passthrough e) := by
  have hfall : errorInterceptor e = fallbackRejection e := by
    unfold errorInterceptor
    unfold carriesErrorEnvelope at henv
    rcases hr : e.resp with _ | p
    · rfl
    · obtain ⟨st, d⟩ := p
      rw [hr] at henv
      have hcond : (truthy d && statusIs d "error") = false := by simpa using henv
      simp [hcond]
  rw [hfall]
  unfold fallbackRejection
  refine ⟨?_, ?_, ?_⟩
  · intro h
    simp [h]
  · intro h
    simp [h]
  · intro h1 h2
    simp [h1, h2]

theorem c9_witness :
    (errorInterceptor { resp := none, code := some "ECONNABORTED" } =
      Rejection.newError (Json.str "Request timeout - Ekasi Cart API not responding") none none) ∧
    (errorInterceptor { resp := none, code := some "ERR_NETWORK" } =
      Rejection.newError (Json.str "Network error - Unable to reach Ekasi Cart API") none none) ∧
    (errorInterceptor { resp := none, code := some "EOTHER" } =
      Rejection.passthrough { resp := none, code := some "EOTHER" }) :=
  ⟨(c9_non_envelope_error_fallback _ (by decide)).1 rfl,
   (c9_non_envelope_error_fallback _ (by decide)).2.1 rfl,
   (c9_non_envelope_error_fallback _ (by decide)).2.2 (by decide) (by decide)⟩

/-!
## Claims about the facade operations
-/

/-- C4 (amended): when the by-ID GET rejects and the tracking GET succeeds,
`getOrderByIdOrTrackingNumber` returns `transformCellerHutOrder` applied to
the tracking-endpoint visible body — except that when the body carries
truthy `tracking_enabled` and `tookan_job_id` fields the transformed order
additionally receives the derived `gps_tracking` sub-object. -/
theorem c4_id_then_tracking_fallback (tf : Json → Json) (id : String)
    (http : HttpOracle) (e : AxiosErrorLike) (st : Nat) (body : Json)
    (h1 : http (CellerHutOrdersService.orderByIdReq id) = RawOutcome.failure e)
    (h2 : http (CellerHutOrdersService.orderByTrackingReq id) = RawOutcome.success st body) :
    (CellerHutOrdersService.trackingFlagged (unwrapResponse body) = false →
      (CellerHutOrdersService.getOrderByIdOrTrackingNumber tf id http).outcome =
        Except.ok (tf (unwrapResponse body))) ∧
    (CellerHutOrdersService.trackingFlagged (unwrapResponse body) = true →
      (CellerHutOrdersService.getOrderByIdOrTrackingNumber tf id http).outcome =
        Except.ok (setField (tf (unwrapResponse body)) "gps_tracking"
          (CellerHutOrdersService.gpsTrackingObj (unwrapResponse body)))) := by
  unfold CellerHutOrdersService.getOrderByIdOrTrackingNumber
  rw [h1, h2]
  constructor <;> intro hf <;> simp [adapterResult, hf]

theorem c4_witness :
    (CellerHutOrdersService.getOrderByIdOrTrackingNumber (fun j => j) "T123"
        fallbackOracle).outcome =
      Except.ok (setField trackedOrderBody "gps_tracking"
        (CellerHutOrdersService.gpsTrackingObj trackedOrderBody)) :=
  (c4_id_then_tracking_fallback (fun j => j) "T123" fallbackOracle notFoundErr 200
    trackedOrderBody (by decide) (by decide)).2 (by decide)

/-- C4 counterexample: with the identity transformer and a tracking body
that flags GPS tracking, the fallback result is not the transformed
tracking body — it additionally carries `gps_tracking`. -/
theorem c4_counterexample :
    (CellerHutOrdersService.getOrderByIdOrTrackingNumber (fun j => j) "T123"
        fallbackOracle).outcome ≠ Except.ok trackedOrderBody := by
  decide

/-- C6: when the upstream call of `getOrders` succeeds but the visible
(unwrapped) body is not an array, the result is a paginator whose `data`
field is the empty list, and nothing is raised. -/
theorem c6_getOrders_non_array_empty (tf jsNumber : Json → Json)
    (dto : CellerHutOrdersService.GetOrdersDto) (http : HttpOracle) (st : Nat) (body : Json)
    (h : http (getReq "/ecommerce/orders" (CellerHutOrdersService.getOrdersParams jsNumber dto)) =
      RawOutcome.success st body)
    (hna : isArrayJson (unwrapResponse body) = false) :
    (CellerHutOrdersService.getOrders tf jsNumber dto http).outcome =
      Except.ok (paginatorResult tf (unwrapResponse body)) ∧
    outcomeField (CellerHutOrdersService.getOrders tf jsNumber dto http).outcome "data" =
      some (Json.arr []) := by
  have hout : (CellerHutOrdersService.getOrders tf jsNumber dto http).outcome =
      Except.ok (paginatorResult tf (unwrapResponse body)) := by
    simp only [CellerHutOrdersService.getOrders]
    rw [h]
    rfl
  refine ⟨hout, ?_⟩
  rw [hout]
  show (paginatorResult tf (unwrapResponse body)).getField "data" = some (Json.arr [])
  exact paginator_data_of_non_array tf _ hna

theorem c6_witness :
    (CellerHutOrdersService.getOrders (fun j => j) (fun j => j)
        { limit := none, page := none, customer_id := none, tracking_number := none,
          search := none, shop_id := none }
        (fun _ => RawOutcome.success 200 (Json.obj [("message", Json.str "no list here")]))).outcome =
      Except.ok (paginatorResult (fun j => j) (Json.obj [("message", Json.str "no list here")])) ∧
    outcomeField (CellerHutOrdersService.getOrders (fun j => j) (fun j => j)
        { limit := none, page := none, customer_id := none, tracking_number := none,
          search := none, shop_id := none }
        (fun _ => RawOutcome.success 200 (Json.obj [("message", Json.str "no list here")]))).outcome
      "data" = some (Json.arr []) :=
  c6_getOrders_non_array_empty (fun j => j) (fun j => j) _ _ 200
    (Json.obj [("message", Json.str "no list here")]) rfl (by decide)

/-- C7: when the creation POST succeeds with a body carrying an `order`
field and a (truthy) `payment` field, `create` returns the transformed
order with the payment object attached unchanged under the `payment` key;
when the body has no `payment` field the transformed order is returned
without any payment attached. -/
theorem c7_create_payment_attach (tReq tf : Json → Json) (dto : Json) (http : HttpOracle)
    (st : Nat) (body : Json) (order : Json)
    (h : http (postReq "/ecommerce/orders" (tReq dto)) = RawOutcome.success st body)
    (horder : truthyOpt ((unwrapResponse body).getField "order") = some order) :
    (∀ p, truthyOpt ((unwrapResponse body).getField "payment") = some p →
      (CellerHutOrdersService.create tReq tf dto http).outcome =
        Except.ok (setField (tf order) "payment" p) ∧
      (∀ fs, tf order = Json.obj fs →
        (setField (tf order) "payment" p).getField "payment" = some p)) ∧
    ((unwrapResponse body).getField "payment" = none →
      (CellerHutOrdersService.create tReq tf dto http).outcome = Except.ok (tf order)) := by
  have hord : jsOr ((unwrapResponse body).getField "order") (unwrapResponse body) = order :=
    jsOr_of_truthy horder _
  constructor
  · intro p hp
    constructor
    · simp only [CellerHutOrdersService.create]
      rw [h]
      simp [adapterResult, hord, hp]
    · intro fs hfs
      rw [hfs]
      exact getField_setField fs "payment" p
  · intro hp
    simp only [CellerHutOrdersService.create]
    rw [h]
    have hpn : truthyOpt ((unwrapResponse body).getField "payment") = none := by
      rw [hp]
      rfl
    simp [adapterResult, hord, hpn]

theorem c7_witness :
    (CellerHutOrdersService.create (fun j => j) (fun j => j) Json.null mockCreateOracle).outcome =
      Except.ok (Json.obj [("id", Json.num 1), ("payment", Json.obj [("url", Json.str "https://pay")])]) ∧
    outcomeField (CellerHutOrdersService.create (fun j => j) (fun j => j) Json.null
        mockCreateOracle).outcome "payment" = some (Json.obj [("url", Json.str "https://pay")]) ∧
    (Json.obj [("url", Json.str "https://pay")]).getField "url" = some (Json.str "https://pay") :=
  ⟨((c7_create_payment_attach (fun j => j) (fun j => j) Json.null mockCreateOracle 201
      mockCreateBody (Json.obj [("id", Json.num 1)]) rfl (by decide)).1
      (Json.obj [("url", Json.str "https://pay")]) (by decide)).1,
   by decide, by decide⟩

/-- C8: `updateOrderStatus id s` issues exactly one request — a PUT to
`/orders/{id}/status` with body `{order_status: s}` — and on success
returns `transformCellerHutOrder` applied to the visible response body. -/
theorem c8_updateOrderStatus_put (tf : Json → Json) (id : Int) (s : String) (http : HttpOracle) :
    (CellerHutOrdersService.updateOrderStatus tf id s http).requests =
      [putReq ("/orders/" ++ toString id ++ "/status") (Json.obj [("order_status", Json.str s)])] ∧
    (∀ st body,
      http (putReq ("/orders/" ++ toString id ++ "/status")
        (Json.obj [("order_status", Json.str s)])) = RawOutcome.success st body →
      (CellerHutOrdersService.updateOrderStatus tf id s http).outcome =
        Except.ok (tf (unwrapResponse body))) := by
  constructor
  · rfl
  · intro st body h
    simp only [CellerHutOrdersService.updateOrderStatus]
    rw [h]
    rfl

theorem c8_witness :
    (CellerHutOrdersService.updateOrderStatus (fun j => j) 42 "completed"
        (fun _ => RawOutcome.success 200 (Json.obj [("id", Json.num 42)]))).requests =
      [putReq "/orders/42/status" (Json.obj [("order_status", Json.str "completed")])] ∧
    (CellerHutOrdersService.updateOrderStatus (fun j => j) 42 "completed"
        (fun _ => RawOutcome.success 200 (Json.obj [("id", Json.num 42)]))).outcome =
      Except.ok (Json.obj [("id", Json.num 42)]) :=
  ⟨(c8_updateOrderStatus_put (fun j => j) 42 "completed" _).1,
   (c8_updateOrderStatus_put (fun j => j) 42 "completed" _).2 200
     (Json.obj [("id", Json.num 42)]) rfl⟩

/-- C10 (amended): the success flag returned by a non-throwing
`processPayment` call is `response.data.success || true`: the boolean
`true` whenever the upstream `success` field is absent or falsy — so an
upstream `success: false` can never be reported — but equal to the upstream
value itself when that value is truthy (hence the boolean `true` only if
the field was literally `true`). -/
theorem c10_processPayment_success_flag (orderId : Int) (paymentData : Json)
    (http : HttpOracle) (st : Nat) (body : Json)
    (h : http (postReq ("/orders/" ++ toString orderId ++ "/payment") paymentData) =
      RawOutcome.success st body) :
    (truthyOpt ((unwrapResponse body).getField "success") = none →
      outcomeField (CellerHutOrdersService.processPayment orderId paymentData http).outcome
        "success" = some (Json.bool true)) ∧
    (∀ v, truthyOpt ((unwrapResponse body).getField "success") = some v →
      outcomeField (CellerHutOrdersService.processPayment orderId paymentData http).outcome
        "success" = some v) := by
  have hout : (CellerHutOrdersService.processPayment orderId paymentData http).outcome =
      Except.ok (Json.obj
        [("success", jsOr ((unwrapResponse body).getField "success") (Json.bool true)),
         ("payment_intent", (unwrapResponse body).getFieldD "payment_intent"),
         ("transaction_id", (unwrapResponse body).getFieldD "transaction_id"),
         ("message", jsOr ((unwrapResponse body).getField "message")
           (Json.str "Payment processed successfully"))]) := by
    simp only [CellerHutOrdersService.processPayment]
    rw [h]
    rfl
  constructor
  · intro hn
    rw [hout]
    show some (jsOr ((unwrapResponse body).getField "success") (Json.bool true)) = _
    rw [jsOr_of_falsy hn]
  · intro v hv
    rw [hout]
    show some (jsOr ((unwrapResponse body).getField "success") (Json.bool true)) = _
    rw [jsOr_of_truthy hv]

theorem c10_witness :
    outcomeField (CellerHutOrdersService.processPayment 9 Json.null
      (fun _ => RawOutcome.success 200 (Json.obj [("success", Json.bool false)]))).outcome
      "success" = some (Json.bool true) :=
  (c10_processPayment_success_flag 9 Json.null _ 200 (Json.obj [("success", Json.bool false)])
    rfl).1 (by decide)

/-- C10 counterexample: an upstream body whose `success` field is the
truthy string `"CONFIRMED"` makes `processPayment` report that string as
the success flag, not the boolean `true`. -/
theorem c10_counterexample :
    outcomeField (CellerHutOrdersService.processPayment 9 Json.null
        truthySuccessOracle).outcome "success" = some (Json.str "CONFIRMED") ∧
    outcomeField (CellerHutOrdersService.processPayment 9 Json.null
        truthySuccessOracle).outcome "success" ≠ some (Json.bool true) := by
  decide

/-- C5: under upstream failure `getOrderAnalytics` returns the zeroed
analytics object `{total_orders: 0, total_revenue: 0, pending_orders: 0,
completed_orders: 0, cancelled_orders: 0, average_order_value: 0}` without
raising, and it is the sole facade operation whose failure path does not
raise: every other operation's failure path yields a thrown error. -/
theorem c5_analytics_sole_nonraising (e : AxiosErrorLike)
    (tReq tf jsNumber : Json → Json) (dto : CellerHutOrdersService.GetOrdersDto)
    (dtoJ opts pd cd vd sd : Json) (idS sess trackN : String)
    (idN custN shopN payN invN : Int) (s ps : String) (shopQ : Option Int) :
    (CellerHutOrdersService.getOrderAnalytics shopQ (failingOracle e)).outcome =
      Except.ok CellerHutOrdersService.zeroAnalytics ∧
    (CellerHutOrdersService.create tReq tf dtoJ (failingOracle e)).outcome =
      Except.error (Json.str "Failed to create order in Ekasi Cart API") ∧
    (CellerHutOrdersService.getOrders tf jsNumber dto (failingOracle e)).outcome =
      Except.error (Json.str "Failed to fetch orders from Ekasi Cart API") ∧
    (CellerHutOrdersService.getOrderByIdOrTrackingNumber tf idS (failingOracle e)).outcome =
      Except.error (Json.str ("Order with ID/tracking \"" ++ idS ++ "\" not found")) ∧
    (CellerHutOrdersService.update tReq tf idN dtoJ (failingOracle e)).outcome =
      Except.error (Json.str ("Failed to update order " ++ toString idN ++ " in Ekasi Cart API")) ∧
    (CellerHutOrdersService.cancel tf idN (failingOracle e)).outcome =
      Except.error (Json.str ("Failed to cancel order " ++ toString idN ++ " in Ekasi Cart API")) ∧
    (CellerHutOrdersService.getOrderStatus idN (failingOracle e)).outcome =
      Except.error (Json.str ("Failed to get status for order " ++ toString idN)) ∧
    (CellerHutOrdersService.updateOrderStatus tf idN s (failingOracle e)).outcome =
      Except.error (Json.str ("Failed to update status for order " ++ toString idN)) ∧
    (CellerHutOrdersService.updatePaymentStatus tf idN ps (failingOracle e)).outcome =
      Except.error (Json.str ("Failed to update payment status for order " ++ toString idN)) ∧
    (CellerHutOrdersService.getOrdersByCustomer tf custN opts (failingOracle e)).outcome =
      Except.error (Json.str ("Failed to fetch orders for customer " ++ toString custN)) ∧
    (CellerHutOrdersService.getOrdersByShop tf shopN opts (failingOracle e)).outcome =
      Except.error (Json.str ("Failed to fetch orders for shop " ++ toString shopN)) ∧
    (CellerHutOrdersService.processPayment payN pd (failingOracle e)).outcome =
      Except.error (Json.str ("Failed to process payment for order " ++ toString payN)) ∧
    (CellerHutOrdersService.getOrderInvoice invN (failingOracle e)).outcome =
      Except.error (Json.str ("Failed to get invoice for order " ++ toString invN)) ∧
    (CellerHutOrdersService.getOrderTracking trackN (failingOracle e)).outcome =
      Except.error (Json.str ("Failed to get tracking for order " ++ trackN)) ∧
    (CellerHutOrdersService.verifyCheckout cd (failingOracle e)).outcome =
      Except.error (Json.str "Failed to verify checkout data") ∧
    (CellerHutOrdersService.getCheckoutSession sess (failingOracle e)).outcome =
      Except.error (Json.str "Failed to get checkout session") ∧
    (CellerHutOrdersService.verifyPaymentForOrder sd (failingOracle e)).outcome =
      Except.error (Json.str "Failed to verify payment for order") ∧
    (CellerHutOrdersService.validateCheckoutForPayment vd (failingOracle e)).outcome =
      Except.error (CellerHutOrdersService.validateCatchMessage (errorInterceptor e)) ∧
    (CellerHutOrdersService.initiatePaymentFirst pd (failingOracle e)).outcome =
      Except.error (CellerHutOrdersService.initiateCatchMessage (errorInterceptor e)) := by
  exact ⟨rfl, rfl, rfl, rfl, rfl, rfl, rfl, rfl, rfl, rfl, rfl, rfl, rfl, rfl, rfl, rfl, rfl,
    rfl, rfl⟩

/-- C2 (amended): on failure of the underlying call, every facade
operation other than `validateCheckoutForPayment`, `initiatePaymentFirst`
and `getOrderAnalytics` raises a fixed, operation-named message that
discards the adapter-normalized metadata; `getOrderAnalytics` does not
raise at all (it returns the zeroed analytics object); and the two
payment-first operations forward the upstream error message only when the
caught error still carries a `response` — i.e. when the adapter passed a
non-envelope error through.  When the upstream returns a structured
`{status: "error"}` envelope, the adapter's normalized error has no
`response` property, so the two payment-first operations also raise their
fixed messages instead of the upstream message. -/
theorem c2_facade_error_messages (e1 e2 e3 : AxiosErrorLike) (st2 : Nat) (d2 m : Json)
    (tReq tf jsNumber : Json → Json) (dto : CellerHutOrdersService.GetOrdersDto)
    (dtoJ opts pd cd vd sd : Json) (idS sess trackN : String)
    (idN custN shopN payN invN : Int) (s ps : String) (shopQ : Option Int)
    (h2resp : e2.resp = some (st2, d2)) (h2t : truthy d2 = true)
    (h2s : statusIs d2 "error" = false) (h2c : e2.code = none)
    (h2m : d2.getField "message" = some m) (h2mt : truthy m = true)
    (h3 : carriesErrorEnvelope e3 = true) :
    (CellerHutOrdersService.create tReq tf dtoJ (failingOracle e1)).outcome =
      Except.error (Json.str "Failed to create order in Ekasi Cart API") ∧
    (CellerHutOrdersService.getOrders tf jsNumber dto (failingOracle e1)).outcome =
      Except.error (Json.str "Failed to fetch orders from Ekasi Cart API") ∧
    (CellerHutOrdersService.getOrderByIdOrTrackingNumber tf idS (failingOracle e1)).outcome =
      Except.error (Json.str ("Order with ID/tracking \"" ++ idS ++ "\" not found")) ∧
    (CellerHutOrdersService.update tReq tf idN dtoJ (failingOracle e1)).outcome =
      Except.error (Json.str ("Failed to update order " ++ toString idN ++ " in Ekasi Cart API")) ∧
    (CellerHutOrdersService.cancel tf idN (failingOracle e1)).outcome =
      Except.error (Json.str ("Failed to cancel order " ++ toString idN ++ " in Ekasi Cart API")) ∧
    (CellerHutOrdersService.getOrderStatus idN (failingOracle e1)).outcome =
      Except.error (Json.str ("Failed to get status for order " ++ toString idN)) ∧
    (CellerHutOrdersService.updateOrderStatus tf idN s (failingOracle e1)).outcome =
      Except.error (Json.str ("Failed to update status for order " ++ toString idN)) ∧
    (CellerHutOrdersService.updatePaymentStatus tf idN ps (failingOracle e1)).outcome =
      Except.error (Json.str ("Failed to update payment status for order " ++ toString idN)) ∧
    (CellerHutOrdersService.getOrdersByCustomer tf custN opts (failingOracle e1)).outcome =
      Except.error (Json.str ("Failed to fetch orders for customer " ++ toString custN)) ∧
    (CellerHutOrdersService.getOrdersByShop tf shopN opts (failingOracle e1)).outcome =
      Except.error (Json.str ("Failed to fetch orders for shop " ++ toString shopN)) ∧
    (CellerHutOrdersService.processPayment payN pd (failingOracle e1)).outcome =
      Except.error (Json.str ("Failed to process payment for order " ++ toString payN)) ∧
    (CellerHutOrdersService.getOrderInvoice invN (failingOracle e1)).outcome =
      Except.error (Json.str ("Failed to get invoice for order " ++ toString invN)) ∧
    (CellerHutOrdersService.getOrderTracking trackN (failingOracle e1)).outcome =
      Except.error (Json.str ("Failed to get tracking for order " ++ trackN)) ∧
    (CellerHutOrdersService.verifyCheckout cd (failingOracle e1)).outcome =
      Except.error (Json.str "Failed to verify checkout data") ∧
    (CellerHutOrdersService.getCheckoutSession sess (failingOracle e1)).outcome =
      Except.error (Json.str "Failed to get checkout session") ∧
    (CellerHutOrdersService.verifyPaymentForOrder sd (failingOracle e1)).outcome =
      Except.error (Json.str "Failed to verify payment for order") ∧
    (CellerHutOrdersService.getOrderAnalytics shopQ (failingOracle e1)).outcome =
      Except.ok CellerHutOrdersService.zeroAnalytics ∧
    (CellerHutOrdersService.validateCheckoutForPayment vd (failingOracle e2)).outcome =
      Except.error m ∧
    (CellerHutOrdersService.initiatePaymentFirst pd (failingOracle e2)).outcome =
      Except.error m ∧
    (CellerHutOrdersService.validateCheckoutForPayment vd (failingOracle e3)).outcome =
      Except.error (Json.str "Failed to validate checkout for payment") ∧
    (CellerHutOrdersService.initiatePaymentFirst pd (failingOracle e3)).outcome =
      Except.error (Json.str "Failed to initiate payment") := by
  have hpass : errorInterceptor e2 = Rejection.passthrough e2 := by
    unfold errorInterceptor
    rw [h2resp]
    simp only [h2t, h2s, Bool.true_and, if_neg Bool.false_ne_true]
    unfold fallbackRejection
    rw [h2c]
    simp
  have hfwd : ∀ fallback : String,
      jsOr (d2.getField "message") (Json.str fallback) = m := by
    intro fallback
    rw [h2m]
    simp [jsOr, h2mt]
  have h3none : Rejection.response (errorInterceptor e3) = none := by
    unfold carriesErrorEnvelope at h3
    unfold errorInterceptor
    rcases hr : e3.resp with _ | p
    · rw [hr] at h3
      exact absurd h3 (by simp)
    · obtain ⟨st3, d3⟩ := p
      rw [hr] at h3
      have hcond : (truthy d3 && statusIs d3 "error") = true := by simpa using h3
      simp [hcond, Rejection.response]
  have hv2 : (CellerHutOrdersService.validateCheckoutForPayment vd (failingOracle e2)).outcome =
      Except.error m := by
    have hbase : (CellerHutOrdersService.validateCheckoutForPayment vd
        (failingOracle e2)).outcome =
        Except.error (CellerHutOrdersService.validateCatchMessage (errorInterceptor e2)) := rfl
    rw [hbase, hpass]
    unfold CellerHutOrdersService.validateCatchMessage
    simp only [Rejection.response]
    rw [h2resp]
    show Except.error (jsOr (d2.getField "message") (Json.str "Failed to validate checkout")) =
      Except.error m
    rw [hfwd]
  have hi2 : (CellerHutOrdersService.initiatePaymentFirst pd (failingOracle e2)).outcome =
      Except.error m := by
    have hbase : (CellerHutOrdersService.initiatePaymentFirst pd (failingOracle e2)).outcome =
        Except.error (CellerHutOrdersService.initiateCatchMessage (errorInterceptor e2)) := rfl
    rw [hbase, hpass]
    unfold CellerHutOrdersService.initiateCatchMessage
    simp only [Rejection.response]
    rw [h2resp]
    show Except.error (jsOr (d2.getField "message") (Json.str "Failed to initiate payment")) =
      Except.error m
    rw [hfwd]
  have hv3 : (CellerHutOrdersService.validateCheckoutForPayment vd (failingOracle e3)).outcome =
      Except.error (Json.str "Failed to validate checkout for payment") := by
    have hbase : (CellerHutOrdersService.validateCheckoutForPayment vd
        (failingOracle e3)).outcome =
        Except.error (CellerHutOrdersService.validateCatchMessage (errorInterceptor e3)) := rfl
    rw [hbase]
    unfold CellerHutOrdersService.validateCatchMessage
    rw [h3none]
  have hi3 : (CellerHutOrdersService.initiatePaymentFirst pd (failingOracle e3)).outcome =
      Except.error (Json.str "Failed to initiate payment") := by
    have hbase : (CellerHutOrdersService.initiatePaymentFirst pd (failingOracle e3)).outcome =
        Except.error (CellerHutOrdersService.initiateCatchMessage (errorInterceptor e3)) := rfl
    rw [hbase]
    unfold CellerHutOrdersService.initiateCatchMessage
    rw [h3none]
  exact ⟨rfl, rfl, rfl, rfl, rfl, rfl, rfl, rfl, rfl, rfl, rfl, rfl, rfl, rfl, rfl, rfl, rfl,
    hv2, hi2, hv3, hi3⟩

theorem c2_witness :
    (CellerHutOrdersService.create (fun j => j) (fun j => j) Json.null
        (failingOracle timeoutErr)).outcome =
      Except.error (Json.str "Failed to create order in Ekasi Cart API") ∧
    (CellerHutOrdersService.getOrderAnalytics none (failingOracle timeoutErr)).outcome =
      Except.ok CellerHutOrdersService.zeroAnalytics ∧
    (CellerHutOrdersService.validateCheckoutForPayment Json.null
        (failingOracle noStockErr)).outcome = Except.error (Json.str "No stock") ∧
    (CellerHutOrdersService.initiatePaymentFirst Json.null
        (failingOracle cardDeclinedErr)).outcome =
      Except.error (Json.str "Failed to initiate payment") := by
  obtain ⟨h1, h2, h3, h4, h5, h6, h7, h8, h9, h10, h11, h12, h13, h14, h15, h16, h17, h18,
      h19, h20, h21⟩ :=
    c2_facade_error_messages timeoutErr noStockErr cardDeclinedErr 500
      (Json.obj [("message", Json.str "No stock")]) (Json.str "No stock")
      (fun j => j) (fun j => j) (fun j => j)
      { limit := none, page := none, customer_id := none, tracking_number := none,
        search := none, shop_id := none }
      Json.null Json.null Json.null Json.null Json.null Json.null "X1" "S1" "T1"
      1 2 3 4 5 "completed" "paid" none
      (by decide) (by decide) (by decide) (by decide) (by decide) (by decide) (by decide)
  exact ⟨h1, h17, h18, h21⟩

/-- C2 counterexample: `getOrderAnalytics` is a facade operation other
than the two payment-first calls, yet its failure path raises nothing (it
returns the zeroed analytics object); and when the upstream returns the
structured error envelope `{status: "error", message: "Card declined"}`,
`validateCheckoutForPayment` raises its fixed message rather than the
upstream message. -/
theorem c2_counterexample :
    (CellerHutOrdersService.getOrderAnalytics none (failingOracle cardDeclinedErr)).outcome =
      Except.ok CellerHutOrdersService.zeroAnalytics ∧
    (CellerHutOrdersService.validateCheckoutForPayment Json.null
        (failingOracle cardDeclinedErr)).outcome =
      Except.error (Json.str "Failed to validate checkout for payment") ∧
    Json.str "Failed to validate checkout for payment" ≠ Json.str "Card declined" := by
  decide
